import Mathlib

/-!
Verification of the web frontend battle logic (src/web/battle.js) of the
Poki_MCP repository, as a shallow embedding in Lean 4.

DOM reads and writes are modelled by explicit state records: an input
element is a field holding its current value, and a function that mutates
the document is embedded as a pure function from its inputs to a record of
the texts, classes and flags it writes.  JavaScript number arithmetic on
the small integer ranges involved here (stats, levels) is exact in IEEE
doubles up to the single rounded division, whose error is far below the
distance of any reachable quotient to an integer, so Math.floor over
doubles is modelled as Int.floor over ℚ.
-/

namespace Battle

/-- Base stats record of a species, as served by the pokemon API and read
by calculateStatsAtLevel. -/
structure BaseStats where
  hp : ℕ
  attack : ℕ
  defense : ℕ
  special_attack : ℕ
  special_defense : ℕ
  speed : ℕ
deriving DecidableEq

/-- Computed stats at a level, the return shape of calculateStatsAtLevel. -/
structure Stats where
  hp : ℤ
  attack : ℤ
  defense : ℤ
  special_attack : ℤ
  special_defense : ℤ
  speed : ℤ
deriving DecidableEq

/-- The inner arrow function calcHP of calculateStatsAtLevel:
Math.floor(((2 * base * level) / 100) + level + 10). -/
def calcHP (base level : ℕ) : ℤ :=
  ⌊(2 * base * level : ℚ) / 100 + level + 10⌋

/-- The inner arrow function calcStat of calculateStatsAtLevel:
Math.floor(((2 * base * level) / 100) + 5). -/
def calcStat (base level : ℕ) : ℤ :=
  ⌊(2 * base * level : ℚ) / 100 + 5⌋

/-- calculateStatsAtLevel from src/web/battle.js lines 181-193. -/
def calculateStatsAtLevel (baseStats : BaseStats) (level : ℕ) : Stats where
  hp := calcHP baseStats.hp level
  attack := calcStat baseStats.attack level
  defense := calcStat baseStats.defense level
  special_attack := calcStat baseStats.special_attack level
  special_defense := calcStat baseStats.special_defense level
  speed := calcStat baseStats.speed level

/-- The type colors map from src/web/battle.js lines 17-36, in source
order. -/
def typeColors : List (String × String) :=
  [("normal", "#a8a878"), ("fire", "#f08030"), ("water", "#6890f0"),
   ("electric", "#f8d030"), ("grass", "#78c850"), ("ice", "#98d8d8"),
   ("fighting", "#c03028"), ("poison", "#a040a0"), ("ground", "#e0c068"),
   ("flying", "#a890f0"), ("psychic", "#f85888"), ("bug", "#a8b820"),
   ("rock", "#b8a038"), ("ghost", "#705898"), ("dragon", "#7038f8"),
   ("dark", "#705848"), ("steel", "#b8b8d0"), ("fairy", "#ee99ac")]

/-- Modelled from the spec: the DamageCalculator formula.  The battle
engine implementation (battle_engine/battle_simulator.py) is not among the
sources; only the README documents the formula.  Per the spec,
base = floor(((2*attackerLevel/5 + 2) * power * atkStat/defStat)/50 + 2)
and the damage dealt is
floor(base * stab * effectivenessMultiplier * critMultiplier * randomFactor). -/
def computeDamage (attackerLevel power atkStat defStat : ℕ)
    (stab effectivenessMultiplier critMultiplier randomFactor : ℚ) : ℤ :=
  let base : ℤ :=
    ⌊((2 * attackerLevel / 5 + 2 : ℚ) * power * atkStat / defStat) / 50 + 2⌋
  ⌊(base : ℚ) * stab * effectivenessMultiplier * critMultiplier *
    randomFactor⌋

/-- Loaded pokemon data held in battleState after loadPokemon; only the
name field is read by the functions verified here. -/
structure PokemonData where
  name : String
deriving DecidableEq

/-- The setup form inputs read by getBattleConfig.  A level slider is a
range input whose value string is always a decimal numeral, so the field
stores the integer parseInt yields on it; moveSelectValue p m is the
current value of the select element with id pokemon{p}Move{m}. -/
structure SetupDocument where
  pokemon1Level : ℕ
  pokemon2Level : ℕ
  moveSelectValue : ℕ → ℕ → String

/-- One side of a battle configuration. -/
structure PokemonConfig where
  name : String
  level : ℕ
  moves : List String
deriving DecidableEq

/-- The battle configuration assembled by getBattleConfig. -/
structure BattleConfig where
  pokemon1 : PokemonConfig
  pokemon2 : PokemonConfig
deriving DecidableEq

/-- The getMoves closure inside getBattleConfig: an empty array, then one
push per slot i = 1..4 of the value of select pokemon{n}Move{i}. -/
def getMoves (doc : SetupDocument) (pokemonNumber : ℕ) : List String :=
  (List.range 4).foldl
    (fun moves i => moves ++ [doc.moveSelectValue pokemonNumber (i + 1)]) []

/-- getBattleConfig from src/web/battle.js lines 356-378.  The two loaded
pokemon of battleState are passed explicitly (callers guard that both are
loaded before calling). -/
def getBattleConfig (p1 p2 : PokemonData) (doc : SetupDocument) :
    BattleConfig where
  pokemon1 :=
    { name := p1.name, level := doc.pokemon1Level, moves := getMoves doc 1 }
  pokemon2 :=
    { name := p2.name, level := doc.pokemon2Level, moves := getMoves doc 2 }

/-- A server-side validation result as parsed from the validate
endpoint response. -/
structure ValidationResult where
  valid : Bool
  errors : List String
deriving DecidableEq

/-- A list item appended to the validation list element. -/
structure ListItem where
  text : String
  className : String
deriving DecidableEq

/-- What showValidationResults writes to the document. -/
structure ValidationDisplay where
  resultsVisible : Bool
  resultsClassName : String
  items : List ListItem
  battleBtnDisabled : Bool
deriving DecidableEq

/-- The single success item appended when the result is valid. -/
def validItem : ListItem :=
  { text := "OK Battle configuration is valid!", className := "success" }

/-- The item appended for one reported error. -/
def errorItem (e : String) : ListItem :=
  { text := "X " ++ e, className := "error" }

/-- showValidationResults from src/web/battle.js lines 325-351. -/
def showValidationResults (result : ValidationResult) : ValidationDisplay :=
  if result.valid then
    { resultsVisible := true
      resultsClassName := "validation-results success"
      items := [validItem]
      battleBtnDisabled := false }
  else
    { resultsVisible := true
      resultsClassName := "validation-results error"
      items := result.errors.map errorItem
      battleBtnDisabled := true }

/-- One battle event of the battle log. -/
structure BattleEvent where
  type : String
  message : String
deriving DecidableEq

/-- An hp snapshot with current and maximum value. -/
structure HP where
  current : ℕ
  max : ℕ
deriving DecidableEq

/-- A status condition snapshot. -/
structure StatusInfo where
  condition : String
deriving DecidableEq

/-- Post-turn snapshot of one combatant. -/
structure PokemonTurnState where
  hp : HP
  status : Option StatusInfo
deriving DecidableEq

/-- One turn record of the battle log. -/
structure TurnRecord where
  turn : ℕ
  events : List BattleEvent
  pokemon_states : Option (List (String × PokemonTurnState))
deriving DecidableEq

/-- A participant entry of the battle result. -/
structure Participant where
  name : String
  final_hp : HP
deriving DecidableEq

/-- The two participants of the battle result. -/
structure Participants where
  pokemon1 : Participant
  pokemon2 : Participant
deriving DecidableEq

/-- The battle result returned by the simulate endpoint. -/
structure BattleResult where
  winner : String
  total_turns : ℕ
  battle_log : List TurnRecord
  participants : Participants
deriving DecidableEq

/-- Helper for jsIncludes: does sub occur as a contiguous run of hay? -/
def jsIncludesAux (sub : List Char) : List Char → Bool
  | [] => sub.isEmpty
  | c :: cs => sub.isPrefixOf (c :: cs) || jsIncludesAux sub cs

/-- JavaScript String.prototype.includes, modelled on character lists. -/
def jsIncludes (s sub : String) : Bool :=
  jsIncludesAux sub.toList s.toList

/-- getLogClass from src/web/battle.js lines 590-610. -/
def getLogClass (event : BattleEvent) : String :=
  if event.type = "move_use" then "log-move"
  else if event.type = "damage" then "log-damage"
  else if event.type = "effectiveness" then
    if jsIncludes event.message "super effective" then
      "log-effectiveness super-effective"
    else if jsIncludes event.message "not very effective" then
      "log-effectiveness not-very-effective"
    else "log-effectiveness"
  else if event.type = "critical" then "log-critical"
  else if event.type = "faint" then "log-faint"
  else ""

/-- A div appended to the battle log element. -/
structure LogEntry where
  className : String
  text : String
deriving DecidableEq

/-- The turn header div appended at the top of each turn of
animateBattle. -/
def turnHeaderEntry (t : TurnRecord) : LogEntry :=
  { className := "log-entry log-turn", text := "Turn " ++ toString t.turn ++ ":" }

/-- The div appended to the battle log for one event. -/
def eventLogEntry (e : BattleEvent) : LogEntry :=
  { className := "log-entry " ++ getLogClass e, text := e.message }

/-- The battle log appends performed by animateBattle (src/web/battle.js
lines 454-496): the outer loop appends one turn header per turn record,
the inner loop appends one entry per event, in iteration order.
Animations, pauses and health bar updates touch other elements and are
not part of the log. -/
def animateBattleLog (initial : List LogEntry) (battleResult : BattleResult) :
    List LogEntry :=
  battleResult.battle_log.foldl
    (fun log turn =>
      turn.events.foldl (fun log event => log ++ [eventLogEntry event])
        (log ++ [turnHeaderEntry turn]))
    initial

/-- The winner announcement text written by showBattleResults. -/
inductive Announcement where
  | winnerIs (name : String)
  | draw
deriving DecidableEq

/-- What showBattleResults writes to the document. -/
structure ResultsDisplay where
  arenaVisible : Bool
  resultsVisible : Bool
  announcement : Announcement
  summaryTurns : ℕ
  summaryWinner : String
  summaryFinalHP : List (String × ℕ × ℕ)
deriving DecidableEq

/-- showBattleResults from src/web/battle.js lines 615-644. -/
def showBattleResults (battleResult : BattleResult) : ResultsDisplay where
  arenaVisible := false
  resultsVisible := true
  announcement :=
    if battleResult.winner ≠ "Draw" then
      Announcement.winnerIs battleResult.winner
    else Announcement.draw
  summaryTurns := battleResult.total_turns
  summaryWinner := battleResult.winner
  summaryFinalHP :=
    [(battleResult.participants.pokemon1.name,
      battleResult.participants.pokemon1.final_hp.current,
      battleResult.participants.pokemon1.final_hp.max),
     (battleResult.participants.pokemon2.name,
      battleResult.participants.pokemon2.final_hp.current,
      battleResult.participants.pokemon2.final_hp.max)]

/-- The mutable global battleState fields read and written by
startBattle. -/
structure BattleState where
  pokemon1 : Option PokemonData
  pokemon2 : Option PokemonData
  battleInProgress : Bool
  currentBattle : Option BattleResult
deriving DecidableEq

/-- The parsed JSON body of the simulate endpoint response. -/
structure SimulateOutcome where
  success : Bool
  errorMsg : Option String
  result : BattleResult
deriving DecidableEq

/-- Observable side effects of startBattle, in order of occurrence. -/
inductive UIAction where
  | showError (message : String)
  | showLoading (message : String)
  | hideLoading
  | showArena
  | initArena (config : BattleConfig)
  | simulateRequest (config : BattleConfig)
  | animate (result : BattleResult)
  | backToSetup
  | jsException
deriving DecidableEq

/-- startBattle from src/web/battle.js lines 383-427, with the awaited
simulate response injected as a parameter.  If a battle is already in
progress it shows an error and returns at once.  Reading a name off a
null pokemon before the try block would raise an uncaught TypeError,
modelled by the jsException action with the state unchanged. -/
def startBattle (state : BattleState) (doc : SetupDocument)
    (response : SimulateOutcome) : BattleState × List UIAction :=
  if state.battleInProgress then
    (state, [UIAction.showError "Battle already in progress"])
  else
    match state.pokemon1, state.pokemon2 with
    | some p1, some p2 =>
      let config := getBattleConfig p1 p2 doc
      let running := { state with battleInProgress := true }
      if response.success then
        ({ running with currentBattle := some response.result },
         [UIAction.showLoading "Starting battle...", UIAction.showArena,
          UIAction.initArena config, UIAction.simulateRequest config,
          UIAction.hideLoading, UIAction.animate response.result])
      else
        ({ running with battleInProgress := false },
         [UIAction.showLoading "Starting battle...", UIAction.showArena,
          UIAction.initArena config, UIAction.simulateRequest config,
          UIAction.hideLoading,
          UIAction.showError ("Battle failed: " ++
            (response.errorMsg.getD "Battle simulation failed")),
          UIAction.backToSetup])
    | _, _ => (state, [UIAction.jsException])

/-- A status badge span appended to a status effects div. -/
structure StatusBadge where
  className : String
  text : String
deriving DecidableEq

/-- updateStatusEffects from src/web/battle.js lines 575-585: the div is
cleared, then a single badge is appended when a status object is present
whose condition differs from none. -/
def updateStatusEffects (status : Option StatusInfo) : List StatusBadge :=
  match status with
  | some st =>
    if st.condition ≠ "none" then
      [{ className := "status-badge", text := st.condition.toUpper }]
    else []
  | none => []

/-- Floor of a quotient of natural number casts in ℚ is natural
division. -/
lemma int_floor_natCast_div (m n : ℕ) :
    ⌊(m : ℚ) / (n : ℚ)⌋ = ((m / n : ℕ) : ℤ) := by
  rw [← Int.natCast_floor_eq_floor (by positivity), Nat.floor_div_eq_div]

/-- calcHP written with natural division. -/
lemma calcHP_eq (base level : ℕ) :
    calcHP base level = ((2 * base * level / 100 + level + 10 : ℕ) : ℤ) := by
  unfold calcHP
  have h2 : (2 * base * level : ℚ) = ((2 * base * level : ℕ) : ℚ) := by
    push_cast; ring
  have h100 : (100 : ℚ) = ((100 : ℕ) : ℚ) := by norm_num
  have h10 : (10 : ℚ) = ((10 : ℕ) : ℚ) := by norm_num
  rw [h2, h100, h10, Int.floor_add_nat, Int.floor_add_nat,
    int_floor_natCast_div]
  push_cast
  ring

/-- calcStat written with natural division. -/
lemma calcStat_eq (base level : ℕ) :
    calcStat base level = ((2 * base * level / 100 + 5 : ℕ) : ℤ) := by
  unfold calcStat
  have h2 : (2 * base * level : ℚ) = ((2 * base * level : ℕ) : ℚ) := by
    push_cast; ring
  have h100 : (100 : ℚ) = ((100 : ℕ) : ℚ) := by norm_num
  have h5 : (5 : ℚ) = ((5 : ℕ) : ℚ) := by norm_num
  rw [h2, h100, h5, Int.floor_add_nat, int_floor_natCast_div]
  push_cast
  ring

/-- calcHP is monotone in the level. -/
lemma calcHP_mono (base : ℕ) {l1 l2 : ℕ} (h : l1 ≤ l2) :
    calcHP base l1 ≤ calcHP base l2 := by
  rw [calcHP_eq, calcHP_eq]
  have hm : 2 * base * l1 / 100 ≤ 2 * base * l2 / 100 :=
    Nat.div_le_div_right (Nat.mul_le_mul_left _ h)
  exact_mod_cast by omega

/-- calcStat is monotone in the level. -/
lemma calcStat_mono (base : ℕ) {l1 l2 : ℕ} (h : l1 ≤ l2) :
    calcStat base l1 ≤ calcStat base l2 := by
  rw [calcStat_eq, calcStat_eq]
  have hm : 2 * base * l1 / 100 ≤ 2 * base * l2 / 100 :=
    Nat.div_le_div_right (Nat.mul_le_mul_left _ h)
  exact_mod_cast by omega

/-- Pushing one element per list item onto an accumulator appends the
mapped list. -/
lemma foldl_push_eq_append {α β : Type} (f : α → β) (l : List α)
    (acc : List β) :
    l.foldl (fun log a => log ++ [f a]) acc = acc ++ l.map f := by
  induction l generalizing acc with
  | nil => simp
  | cons x xs ih => simp [ih]

/-- The turn loop of animateBattle appends, per turn, the header followed
by one entry per event. -/
lemma animateBattleLog_go (l : List TurnRecord) (initial : List LogEntry) :
    l.foldl
      (fun log turn =>
        turn.events.foldl (fun log event => log ++ [eventLogEntry event])
          (log ++ [turnHeaderEntry turn]))
      initial =
    initial ++
      l.flatMap (fun turn =>
        turnHeaderEntry turn :: turn.events.map eventLogEntry) := by
  induction l generalizing initial with
  | nil => simp
  | cons t ts ih =>
    rw [List.foldl_cons, foldl_push_eq_append, ih]
    simp [List.append_assoc]

/-- Claim C1: for every base-stats record and every level,
calculateStatsAtLevel returns hp = floor(2*baseHp*level/100 + level + 10)
and, for each of attack, defense, special attack, special defense and
speed, floor(2*base*level/100 + 5); the floors are realised as natural
division. -/
theorem claim_C1_calculateStatsAtLevel_formula (b : BaseStats) (level : ℕ) :
    calculateStatsAtLevel b level =
      { hp := ((2 * b.hp * level / 100 + level + 10 : ℕ) : ℤ)
        attack := ((2 * b.attack * level / 100 + 5 : ℕ) : ℤ)
        defense := ((2 * b.defense * level / 100 + 5 : ℕ) : ℤ)
        special_attack := ((2 * b.special_attack * level / 100 + 5 : ℕ) : ℤ)
        special_defense := ((2 * b.special_defense * level / 100 + 5 : ℕ) : ℤ)
        speed := ((2 * b.speed * level / 100 + 5 : ℕ) : ℤ) } := by
  simp [calculateStatsAtLevel, calcHP_eq, calcStat_eq]

/-- Claim C2: the damage dealt is
floor(base * stab * effectivenessMultiplier * critMultiplier *
randomFactor) with base = floor(((2*attackerLevel/5 + 2) * power *
atkStat/defStat)/50 + 2). -/
theorem claim_C2_damage_formula (attackerLevel power atkStat defStat : ℕ)
    (stab effectivenessMultiplier critMultiplier randomFactor : ℚ) :
    computeDamage attackerLevel power atkStat defStat stab
        effectivenessMultiplier critMultiplier randomFactor =
      ⌊((⌊((2 * attackerLevel / 5 + 2 : ℚ) * power * atkStat / defStat) / 50
            + 2⌋ : ℤ) : ℚ) *
        stab * effectivenessMultiplier * critMultiplier * randomFactor⌋ :=
  rfl

/-- Claim C3: for fixed base stats and levels l1 ≤ l2 in [1, 100], every
stat computed by calculateStatsAtLevel at l1 is at most the corresponding
stat at l2. -/
theorem claim_C3_calculateStatsAtLevel_monotone (b : BaseStats)
    (l1 l2 : ℕ) (h1 : 1 ≤ l1) (h12 : l1 ≤ l2) (h2 : l2 ≤ 100) :
    (calculateStatsAtLevel b l1).hp ≤ (calculateStatsAtLevel b l2).hp ∧
    (calculateStatsAtLevel b l1).attack ≤
      (calculateStatsAtLevel b l2).attack ∧
    (calculateStatsAtLevel b l1).defense ≤
      (calculateStatsAtLevel b l2).defense ∧
    (calculateStatsAtLevel b l1).special_attack ≤
      (calculateStatsAtLevel b l2).special_attack ∧
    (calculateStatsAtLevel b l1).special_defense ≤
      (calculateStatsAtLevel b l2).special_defense ∧
    (calculateStatsAtLevel b l1).speed ≤ (calculateStatsAtLevel b l2).speed :=
  ⟨calcHP_mono _ h12, calcStat_mono _ h12, calcStat_mono _ h12,
   calcStat_mono _ h12, calcStat_mono _ h12, calcStat_mono _ h12⟩

/-- Witness for claim C3 at base stats (45, 49, 49, 65, 65, 45) and
levels 25 and 80. -/
theorem claim_C3_witness :
    (1 ≤ 25 ∧ 25 ≤ 80 ∧ 80 ≤ 100) ∧
    (calculateStatsAtLevel ⟨45, 49, 49, 65, 65, 45⟩ 25).hp ≤
      (calculateStatsAtLevel ⟨45, 49, 49, 65, 65, 45⟩ 80).hp :=
  ⟨⟨by decide, by decide, by decide⟩,
   (claim_C3_calculateStatsAtLevel_monotone ⟨45, 49, 49, 65, 65, 45⟩ 25 80
     (by decide) (by decide) (by decide)).1⟩

/-- Claim C4: getBattleConfig returns a configuration whose two sides
carry exactly the four selected move identifiers and the integer value of
the respective level slider. -/
theorem claim_C4_getBattleConfig (p1 p2 : PokemonData)
    (doc : SetupDocument) :
    ((getBattleConfig p1 p2 doc).pokemon1.moves =
        [doc.moveSelectValue 1 1, doc.moveSelectValue 1 2,
         doc.moveSelectValue 1 3, doc.moveSelectValue 1 4] ∧
      (getBattleConfig p1 p2 doc).pokemon1.moves.length = 4 ∧
      (getBattleConfig p1 p2 doc).pokemon1.level = doc.pokemon1Level) ∧
    ((getBattleConfig p1 p2 doc).pokemon2.moves =
        [doc.moveSelectValue 2 1, doc.moveSelectValue 2 2,
         doc.moveSelectValue 2 3, doc.moveSelectValue 2 4] ∧
      (getBattleConfig p1 p2 doc).pokemon2.moves.length = 4 ∧
      (getBattleConfig p1 p2 doc).pokemon2.level = doc.pokemon2Level) :=
  ⟨⟨rfl, rfl, rfl⟩, ⟨rfl, rfl, rfl⟩⟩

/-- Claim C5: when the result is invalid the battle button is disabled
and one error item is rendered per reported error; when it is valid the
battle button is enabled. -/
theorem claim_C5_showValidationResults (r : ValidationResult) :
    (r.valid = false →
      (showValidationResults r).battleBtnDisabled = true ∧
      (showValidationResults r).items = r.errors.map errorItem ∧
      (showValidationResults r).items.length = r.errors.length) ∧
    (r.valid = true →
      (showValidationResults r).battleBtnDisabled = false) := by
  cases hv : r.valid <;> simp [showValidationResults, hv]

/-- Witness for claim C5 at an invalid result carrying two errors. -/
theorem claim_C5_witness :
    (showValidationResults ⟨false, ["a", "b"]⟩).battleBtnDisabled = true ∧
    (showValidationResults ⟨false, ["a", "b"]⟩).items.length = 2 := by
  have h := claim_C5_showValidationResults ⟨false, ["a", "b"]⟩
  exact ⟨(h.1 rfl).1, by simpa using (h.1 rfl).2.2⟩

/-- Claim C6: the log entries appended by animateBattle are exactly one
turn header per turn record followed by one entry per event of that turn,
in battle-log order, nothing skipped, duplicated or reordered. -/
theorem claim_C6_animateBattle_log (initial : List LogEntry)
    (battleResult : BattleResult) :
    animateBattleLog initial battleResult =
      initial ++
        battleResult.battle_log.flatMap (fun turn =>
          turnHeaderEntry turn :: turn.events.map eventLogEntry) :=
  animateBattleLog_go battleResult.battle_log initial

/-- Claim C7: typeColors defines exactly the 18 type labels, with no
duplicate. -/
theorem claim_C7_typeColors_keys :
    typeColors.map Prod.fst =
      ["normal", "fire", "water", "electric", "grass", "ice", "fighting",
       "poison", "ground", "flying", "psychic", "bug", "rock", "ghost",
       "dragon", "dark", "steel", "fairy"] ∧
    typeColors.length = 18 ∧ (typeColors.map Prod.fst).Nodup := by
  refine ⟨rfl, rfl, ?_⟩
  decide

/-- Claim C8: showBattleResults announces a draw exactly when the winner
field equals Draw, announces the named winner otherwise, and reports the
total turns and both participants' final current and maximum hp. -/
theorem claim_C8_showBattleResults (r : BattleResult) :
    ((showBattleResults r).announcement = Announcement.draw ↔
      r.winner = "Draw") ∧
    (r.winner ≠ "Draw" →
      (showBattleResults r).announcement = Announcement.winnerIs r.winner) ∧
    (showBattleResults r).summaryTurns = r.total_turns ∧
    (showBattleResults r).summaryWinner = r.winner ∧
    (showBattleResults r).summaryFinalHP =
      [(r.participants.pokemon1.name,
        r.participants.pokemon1.final_hp.current,
        r.participants.pokemon1.final_hp.max),
       (r.participants.pokemon2.name,
        r.participants.pokemon2.final_hp.current,
        r.participants.pokemon2.final_hp.max)] := by
  by_cases h : r.winner = "Draw" <;> simp [showBattleResults, h]

/-- Witness for claim C8 at a result won by pikachu. -/
theorem claim_C8_witness :
    (showBattleResults
        ⟨"pikachu", 8, [],
         ⟨⟨"pikachu", ⟨10, 35⟩⟩, ⟨"charizard", ⟨0, 78⟩⟩⟩⟩).announcement =
      Announcement.winnerIs "pikachu" :=
  (claim_C8_showBattleResults _).2.1 (by decide)

/-- Claim C9: a call to startBattle while a battle is in progress leaves
the battle state unchanged and has the display of an error message as its
only effect, so no new battle is started. -/
theorem claim_C9_startBattle_guard (state : BattleState)
    (doc : SetupDocument) (response : SimulateOutcome)
    (h : state.battleInProgress = true) :
    (startBattle state doc response).1 = state ∧
    (startBattle state doc response).2 =
      [UIAction.showError "Battle already in progress"] := by
  simp [startBattle, h]

/-- Witness for claim C9 at an in-progress state. -/
theorem claim_C9_witness :
    (startBattle ⟨none, none, true, none⟩ ⟨50, 50, fun _ _ => ""⟩
        ⟨true, none, ⟨"Draw", 0, [], ⟨⟨"", ⟨0, 0⟩⟩, ⟨"", ⟨0, 0⟩⟩⟩⟩⟩).1 =
      ⟨none, none, true, none⟩ :=
  (claim_C9_startBattle_guard ⟨none, none, true, none⟩
    ⟨50, 50, fun _ _ => ""⟩
    ⟨true, none, ⟨"Draw", 0, [], ⟨⟨"", ⟨0, 0⟩⟩, ⟨"", ⟨0, 0⟩⟩⟩⟩⟩ rfl).1

/-- Claim C10: after updateStatusEffects the status display holds exactly
one badge, showing the condition, precisely when a status object is
present whose condition is not none; otherwise it is empty. -/
theorem claim_C10_updateStatusEffects (st : Option StatusInfo) :
    ((updateStatusEffects st).length = 1 ↔
      ∃ s, st = some s ∧ s.condition ≠ "none") ∧
    (∀ s, st = some s → s.condition ≠ "none" →
      updateStatusEffects st =
        [{ className := "status-badge", text := s.condition.toUpper }]) ∧
    (∀ s, st = some s → s.condition = "none" →
      updateStatusEffects st = []) ∧
    (st = none → updateStatusEffects st = []) := by
  cases st with
  | none => simp [updateStatusEffects]
  | some s =>
    by_cases h : s.condition = "none" <;> simp [updateStatusEffects, h]

/-- Witness for claim C10 at a burn status. -/
theorem claim_C10_witness :
    updateStatusEffects (some ⟨"burn"⟩) =
      [{ className := "status-badge", text := String.toUpper "burn" }] :=
  (claim_C10_updateStatusEffects (some ⟨"burn"⟩)).2.1 ⟨"burn"⟩ rfl (by decide)

end Battle
